import Mathlib

/- Shallow embedding of the MC44BS373CA RF modulator controller firmware
   (src/controller/controller.ino).  Machine integers are modelled as Nat
   with explicit reductions modulo 2^8, 2^16 and 2^32 at the points where
   the C code truncates.  The mutable globals of the firmware
   (currentSettings, frequencyDivisor, function) become explicit values
   passed to and returned from the embedded functions. -/

set_option maxRecDepth 100000

namespace RFMod

/-- Embedding of the settings_t struct saved to EEPROM: two uint8 fields
followed by one uint32 field (sizeof = 6 on the AVR target, no padding). -/
structure SettingsT where
  testPatternEnable : Nat
  standard : Nat
  frequencyTimes100 : Nat
deriving Repr, DecidableEq

/-- Built-in defaults of the currentSettings global: test pattern enabled,
standard I (value 2), default channel frequency 471.25 MHz. -/
def currentSettingsDefault : SettingsT := ⟨1, 2, 47125⟩

/-- UI state constant fnIdle from the source. -/
def fnIdle : Nat := 0

/-- UI state constant fnChannel from the source. -/
def fnChannel : Nat := 1

/-- UI state constant fnStandard from the source. -/
def fnStandard : Nat := 2

/-- UI state constant fnTestPattern from the source. -/
def fnTestPattern : Nat := 3

/-- Step size constant frequencyIncrementH from the source. -/
def frequencyIncrementH : Nat := 900

/-- Step size constant frequencyIncrementM from the source. -/
def frequencyIncrementM : Nat := 800

/-- Step size constant frequencyIncrementL from the source. -/
def frequencyIncrementL : Nat := 700

/-- Embedding of incrementFrequency acting on the frequencyTimes100 field of
the currentSettings global.  Additions never overflow uint32 because every
adding branch requires the value to be below 102325. -/
def incrementFrequency (f : Nat) : Nat :=
  if f < 102325 ∧ f ≥ 30325 then f + frequencyIncrementM
  else if f < 102325 ∧ f ≥ 29425 then f + frequencyIncrementH
  else if f < 102325 ∧ f ≥ 10525 then f + frequencyIncrementL
  else if f < 102325 ∧ f ≥ 9725 then f + frequencyIncrementM
  else if f < 102325 then f + frequencyIncrementL
  else 4125

/-- Embedding of decrementFrequency.  Subtractions never underflow uint32
because every subtracting branch bounds the value from below by more than
the amount subtracted. -/
def decrementFrequency (f : Nat) : Nat :=
  if f > 30325 then f - frequencyIncrementM
  else if f > 29425 then f - frequencyIncrementH
  else if f > 10525 then f - frequencyIncrementL
  else if f > 9725 then f - frequencyIncrementM
  else if f > 4125 then f - frequencyIncrementL
  else 102325

/-- Embedding of setFrequencyDivider: computes the frequencyDivisor global
from the frequencyTimes100 field. -/
def setFrequencyDivider (f : Nat) : Nat :=
  if f > 42325 then 0
  else if f > 21025 then 1
  else if f > 10525 then 2
  else if f ≥ 4125 then 3
  else 4

/-- Embedding of the channel-label computation in writeConfig (channelDig3
and channelNumber).  channelNumber is a uint8, hence the reduction mod 256;
the band tag is the character written to channelDig3. -/
def channelInfo (f : Nat) : Char × Nat :=
  if f ≥ 47125 then ('C', ((f - 47125) / 800 + 21) % 256)
  else if f < 47125 ∧ f ≥ 30325 then ('S', ((f - 30325) / 800 + 21) % 256)
  else if f < 47125 ∧ f ≥ 23125 then ('S', ((f - 23125) / 700 + 11) % 256)
  else if f < 23125 ∧ f ≥ 17525 then ('C', ((f - 17525) / 700 + 5) % 256)
  else if f < 17525 ∧ f ≥ 10525 then ('S', ((f - 10525) / 700 + 1) % 256)
  else if f < 6925 ∧ f ≥ 4025 then ('C', ((f - 4025) / 700 + 1) % 256)
  else ('-', 0)

/-- Embedding of writeConfigRaw: the I2C transaction to device address
0xCA >> 1, transmitting the four bytes C1, C0, FM, FL in order. -/
def writeConfigRaw (C1 C0 FM FL : Nat) : Nat × List Nat :=
  (0xCA >>> 1, [C1, C0, FM, FL])

/-- Embedding of the 12-argument writeConfig overload.  frequencyBits is a
uint16 computed from uint32 arithmetic, hence the explicit reductions.  The
frequencyDivisor parameter stands for the global of the same name read
through the frequencyDivisorPow preprocessor shorthand; the only call site passes that same
global as the X argument. -/
def writeConfigArgs (SO LOP PS X SYSL PWC OSC ATT SFD SREF TPEN : Nat)
    (frequencyTimes100 frequencyDivisor : Nat) : Nat × List Nat :=
  let frequencyBits := 2 ^ frequencyDivisor * frequencyTimes100 % 4294967296 / 25 % 65536
  let C1 := 0b10000000 ||| ((SO &&& 1) <<< 5) ||| ((LOP &&& 1) <<< 4) |||
        ((PS &&& 1) <<< 3) ||| ((X &&& 0b1100) >>> 1) ||| (SYSL &&& 1)
  let C0 := ((PWC &&& 1) <<< 7) ||| ((OSC &&& 1) <<< 6) ||| ((ATT &&& 1) <<< 5) |||
        ((SFD &&& 3) <<< 3) ||| ((SREF &&& 1) <<< 2) ||| ((X &&& 0b110000) >>> 4)
  let FM := ((TPEN &&& 1) <<< 6) ||| (0b111111 &&& (frequencyBits >>> 6))
  let FL := ((frequencyBits &&& 0b111111) <<< 2) ||| (X &&& 3)
  writeConfigRaw C1 C0 FM FL

/-- Embedding of the zero-argument writeConfig, with the frequencyDivisor
global freshly derived by setFrequencyDivider (as holds after every
frequency mutation, which calls setFrequencyDivider before writeConfig). -/
def writeConfig (s : SettingsT) : Nat × List Nat :=
  let d := setFrequencyDivider s.frequencyTimes100
  writeConfigArgs 0 0 0 d 0 0 0 0 s.standard 0 s.testPatternEnable
    s.frequencyTimes100 d

/-- Embedding of the kEventReleased case of handleFEvent: the next value of
the function global given its current value. -/
def handleFEventReleased (function : Nat) : Nat :=
  if function = fnChannel then fnStandard
  else if function = fnStandard then fnTestPattern
  else fnChannel

/-- Embedding of the kEventLongPressed case of handleFEvent (state change
only; the save and register write it triggers are modelled separately). -/
def handleFEventLongPressed (function : Nat) : Nat :=
  if function = fnIdle then fnChannel else fnIdle

/-- EEPROM header magic constant from the source. -/
def EEPROM_HEADER : Nat := 0x4E45

/-- Little-endian image of a uint16, as eeprom_write_word stores it. -/
def toBytes2 (v : Nat) : List Nat := [v % 256, v / 256 % 256]

/-- Little-endian image of a uint32, as the AVR memory layout stores it. -/
def toBytes4 (v : Nat) : List Nat :=
  [v % 256, v / 256 % 256, v / 65536 % 256, v / 16777216 % 256]

/-- Raw byte image of the settings_t struct (sizeof = 6, no padding on AVR):
testPatternEnable, standard, then frequencyTimes100 little-endian. -/
def settingsBytes (s : SettingsT) : List Nat :=
  [s.testPatternEnable % 256, s.standard % 256] ++ toBytes4 s.frequencyTimes100

/-- The uint16 checksum loop shared by save and load: sum of the struct
bytes accumulated in a uint16, i.e. reduced mod 2^16. -/
def checksum16 (l : List Nat) : Nat := l.sum % 65536

/-- Embedding of currentSettings_save: the 10-byte block written to EEPROM
at offset 0, namely header, struct image, checksum. -/
def currentSettings_save (s : SettingsT) : List Nat :=
  toBytes2 EEPROM_HEADER ++ settingsBytes s ++ toBytes2 (checksum16 (settingsBytes s))

/-- The header word as currentSettings_load reads it back (little-endian). -/
def readHeader (block : List Nat) : Nat :=
  block.getD 0 0 + 256 * block.getD 1 0

/-- The six struct bytes as currentSettings_load reads them back. -/
def readSettingsBytes (block : List Nat) : List Nat :=
  [block.getD 2 0, block.getD 3 0, block.getD 4 0,
   block.getD 5 0, block.getD 6 0, block.getD 7 0]

/-- The stored checksum word as currentSettings_load reads it back. -/
def readStoredChecksum (block : List Nat) : Nat :=
  block.getD 8 0 + 256 * block.getD 9 0

/-- Reassembly of a settings_t value from its raw byte image, inverse of
the AVR memory layout in settingsBytes. -/
def parseSettings (l : List Nat) : SettingsT :=
  ⟨l.getD 0 0, l.getD 1 0,
   l.getD 2 0 + 256 * l.getD 3 0 + 65536 * l.getD 4 0 + 16777216 * l.getD 5 0⟩

/-- Embedding of currentSettings_load: reads header, struct image and
checksum from the block, recomputes the checksum, and accepts (some) only
if both the checksum and the header match. -/
def currentSettings_load (block : List Nat) : Option SettingsT :=
  let sb := readSettingsBytes block
  if readStoredChecksum block = checksum16 sb ∧ readHeader block = EEPROM_HEADER
  then some (parseSettings sb) else none

/-- The effect of currentSettings_load on the live currentSettings global:
overwritten on acceptance, left unchanged on rejection. -/
def loadInto (block : List Nat) (live : SettingsT) : SettingsT :=
  (currentSettings_load block).getD live

/-- The set of frequency values reachable by stepping from the default,
listed explicitly: three arithmetic progressions of channel frequencies. -/
def reachableValues : List Nat :=
  (List.range 9).map (fun k => 4125 + 700 * k) ++
  (List.range 28).map (fun k => 10525 + 700 * k) ++
  (List.range 91).map (fun k => 30325 + 800 * k)

/-- Frequency values reachable from the default 47125 by any sequence of
increment and decrement steps. -/
inductive Reachable : Nat → Prop where
  | base : Reachable 47125
  | up : ∀ f, Reachable f → Reachable (incrementFrequency f)
  | down : ∀ f, Reachable f → Reachable (decrementFrequency f)

/-- Iterated decrement, used to exhibit concrete reachable values. -/
def decIter : Nat → Nat → Nat
  | 0, f => f
  | n + 1, f => decIter n (decrementFrequency f)

/-- Divisor-band table exactly as the spec states it (evaluated top-down,
first match wins), for comparison against setFrequencyDivider. -/
def divisorExponentSpec (f : Nat) : Nat :=
  if f > 42325 then 0
  else if f > 21025 then 1
  else if f > 10525 then 2
  else if f ≥ 4125 then 3
  else 4

/-- Channel-label table exactly as the spec states it (top-down, first
match wins, half-open ranges), for comparison against channelInfo.  The
unlabeled fallback is rendered as the dash tag with channel number 0. -/
def channelTableSpec (f : Nat) : Char × Nat :=
  if 47125 ≤ f then ('C', (f - 47125) / 800 + 21)
  else if 30325 ≤ f then ('S', (f - 30325) / 800 + 21)
  else if 23125 ≤ f then ('S', (f - 23125) / 700 + 11)
  else if 17525 ≤ f then ('C', (f - 17525) / 700 + 5)
  else if 10525 ≤ f then ('S', (f - 10525) / 700 + 1)
  else if 4025 ≤ f ∧ f < 6925 then ('C', (f - 4025) / 700 + 1)
  else ('-', 0)

/-- The derived registerFrequencyBits of the spec: the spec defines it as
2 to the divisorExponent times the frequency value, divided by 25. -/
def registerFrequencyBits (f : Nat) : Nat :=
  2 ^ setFrequencyDivider f * f / 25

/- Helper lemmas shared by several theorems below. -/

/-- Reduction of a bitwise AND with 63 to a remainder mod 64. -/
theorem land_63_eq_mod (x : Nat) : x &&& 63 = x % 64 :=
  Nat.and_pow_two_sub_one_eq_mod x 6

/-- The uint32 product of the divisor power and the frequency value never
overflows, because a divisor power above 1 forces the frequency below 42326. -/
theorem divisorPow_mul_lt (f : Nat) (hf : f < 4294967296) :
    2 ^ setFrequencyDivider f * f % 4294967296 = 2 ^ setFrequencyDivider f * f := by
  apply Nat.mod_eq_of_lt
  unfold setFrequencyDivider
  split_ifs <;> norm_num <;> omega

/-- The explicit list reachableValues is closed under incrementFrequency. -/
theorem reachableValues_closed_inc :
    ∀ f ∈ reachableValues, incrementFrequency f ∈ reachableValues := by decide

/-- The explicit list reachableValues is closed under decrementFrequency. -/
theorem reachableValues_closed_dec :
    ∀ f ∈ reachableValues, decrementFrequency f ∈ reachableValues := by decide

/-- Every value reachable by stepping from the default 47125 belongs to the
explicit list reachableValues. -/
theorem reachable_mem {f : Nat} (h : Reachable f) : f ∈ reachableValues := by
  induction h with
  | base => decide
  | up g _ ih => exact reachableValues_closed_inc g ih
  | down g _ ih => exact reachableValues_closed_dec g ih

/-- Iterated decrement steps stay reachable. -/
theorem reachable_decIter (n : Nat) :
    ∀ f, Reachable f → Reachable (decIter n f) := by
  induction n with
  | zero => exact fun f h => h
  | succ n ih => exact fun f h => ih (decrementFrequency f) (Reachable.down f h)

/- Claim theorems. -/

/-- Claim C2 (counterexample): the claim asserts that frequencyValue 4125
yields divisorExponent 4, but setFrequencyDivider maps 4125 to 3 (the
fourth table row, condition 4125 or above, matches first). -/
theorem c2_counterexample : setFrequencyDivider 4125 ≠ 4 := by decide

/-- Claim C2 (amended): for every frequencyValue the derived divisorExponent
is determined by the first matching row of the top-down table (exponent 0 if
above 42325, else 1 if above 21025, else 2 if above 10525, else 3 if at
least 4125, else 4); in particular frequencyValue 4125 yields exponent 3. -/
theorem c2_divisor_band_table :
    (∀ f, setFrequencyDivider f = divisorExponentSpec f) ∧
    setFrequencyDivider 4125 = 3 :=
  ⟨fun _ => rfl, by decide⟩

/-- Claim C9 (counterexample): a released (short-press) event of the mode
button in the Idle state is not a no-op: the event handler moves the state
to fnChannel. -/
theorem c9_counterexample : handleFEventReleased fnIdle ≠ fnIdle := by decide

/-- Claim C9 (amended): in the Idle state, a released (short-press) event of
the mode button advances the state to EditingChannel (the final else branch
of the handler treats Idle like EditingTestPattern). -/
theorem c9_released_in_idle : handleFEventReleased fnIdle = fnChannel := by
  decide

/-- Claim C4: one increment step adds 700 on [4125,9725) and [10525,29425),
adds 800 on [9725,10525) and [30325,102325), adds 900 on [29425,30325), and
wraps any value at or above 102325 to 4125; one decrement step mirrors this
over the half-open ranges shifted to the right, and wraps any value at or
below 4125 to 102325. -/
theorem c4_stepping_rule (f : Nat) (hf : f < 4294967296) :
    ((4125 ≤ f ∧ f < 9725) ∨ (10525 ≤ f ∧ f < 29425) →
      incrementFrequency f = f + 700) ∧
    ((9725 ≤ f ∧ f < 10525) ∨ (30325 ≤ f ∧ f < 102325) →
      incrementFrequency f = f + 800) ∧
    (29425 ≤ f ∧ f < 30325 → incrementFrequency f = f + 900) ∧
    (102325 ≤ f → incrementFrequency f = 4125) ∧
    ((4125 < f ∧ f ≤ 9725) ∨ (10525 < f ∧ f ≤ 29425) →
      decrementFrequency f = f - 700) ∧
    ((9725 < f ∧ f ≤ 10525) ∨ (30325 < f ∧ f ≤ 102325) →
      decrementFrequency f = f - 800) ∧
    (29425 < f ∧ f ≤ 30325 → decrementFrequency f = f - 900) ∧
    (f ≤ 4125 → decrementFrequency f = 102325) := by
  unfold incrementFrequency decrementFrequency frequencyIncrementH
    frequencyIncrementM frequencyIncrementL
  refine ⟨?_, ?_, ?_, ?_, ?_, ?_, ?_, ?_⟩ <;> intro h <;> split_ifs <;> omega

/-- Claim C4 (witness): incrementing from the default 47125 adds 800. -/
theorem c4_stepping_rule_witness : incrementFrequency 47125 = 47125 + 800 :=
  (c4_stepping_rule 47125 (by decide)).2.1 (Or.inr (by decide))

/-- Claim C6 (counterexample): the wrap boundary 4125 is claimed to be a
non-round-tripping edge case, yet incrementing 4125 and then decrementing
returns 4125. -/
theorem c6_counterexample :
    decrementFrequency (incrementFrequency 4125) = 4125 := by decide

/-- Claim C6 (amended): for every frequencyValue reachable by stepping from
the default 47125, incrementing and then decrementing returns the original
value, with no exception: the two wrap boundaries 4125 and 102325 also
round-trip (each wrap is undone by the opposite wrap). -/
theorem c6_inc_dec_roundtrip (f : Nat) (h : Reachable f) :
    decrementFrequency (incrementFrequency f) = f := by
  have key : ∀ g ∈ reachableValues,
      decrementFrequency (incrementFrequency g) = g := by decide
  exact key f (reachable_mem h)

/-- Claim C6 (witness): the round trip at the default value 47125. -/
theorem c6_inc_dec_roundtrip_witness :
    decrementFrequency (incrementFrequency 47125) = 47125 :=
  c6_inc_dec_roundtrip 47125 Reachable.base

/-- Claim C5 (counterexample): the frequency value 9725 is reachable from
the default 47125 (by 50 decrement steps) yet falls in the unlabeled
fallback row of the channel table, with the dash band tag. -/
theorem c5_counterexample : Reachable 9725 ∧ (channelInfo 9725).1 = '-' := by
  constructor
  · have h := reachable_decIter 50 47125 Reachable.base
    have e : decIter 50 47125 = 9725 := by decide
    rw [e] at h
    exact h
  · decide

/-- Claim C5 (amended): every frequencyValue reachable by stepping from the
default 47125 falls in a labeled row of the channel table (band tag C or
S), except the five reachable values 6925, 7625, 8325, 9025 and 9725 in
the unlabeled 69.25 to 105.25 MHz gap, which fall in the dash fallback. -/
theorem c5_reachable_labeled (f : Nat) (h : Reachable f) :
    (channelInfo f).1 = '-' ↔ f ∈ [6925, 7625, 8325, 9025, 9725] := by
  have key : ∀ g ∈ reachableValues,
      ((channelInfo g).1 = '-' ↔ g ∈ [6925, 7625, 8325, 9025, 9725]) := by
    decide
  exact key f (reachable_mem h)

/-- Claim C5 (witness): the default 47125 is labeled (its tag is not the
dash), matching its absence from the gap list. -/
theorem c5_reachable_labeled_witness :
    (channelInfo 47125).1 = '-' ↔ 47125 ∈ [6925, 7625, 8325, 9025, 9725] :=
  c5_reachable_labeled 47125 Reachable.base

/-- Claim C10: every reachable frequencyValue is a multiple of 25 inside
[4125, 102325]; the register frequency bits 2^divisorExponent * f / 25 are
an exact division (remainder 0), coincide with the uint32 and uint16
truncated computation of the code, are below 4096, and are reassembled
without loss from the 6-bit fields packed into FM and FL. -/
theorem c10_register_bits_exact (f : Nat) (h : Reachable f) :
    f % 25 = 0 ∧ 4125 ≤ f ∧ f ≤ 102325 ∧
    2 ^ setFrequencyDivider f * f % 25 = 0 ∧
    registerFrequencyBits f < 4096 ∧
    2 ^ setFrequencyDivider f * f % 4294967296 / 25 % 65536 =
      registerFrequencyBits f ∧
    ((registerFrequencyBits f >>> 6) &&& 0b111111) * 64 +
      (registerFrequencyBits f &&& 0b111111) = registerFrequencyBits f := by
  have key : ∀ g ∈ reachableValues,
      g % 25 = 0 ∧ 4125 ≤ g ∧ g ≤ 102325 ∧
      2 ^ setFrequencyDivider g * g % 25 = 0 ∧
      registerFrequencyBits g < 4096 ∧
      2 ^ setFrequencyDivider g * g % 4294967296 / 25 % 65536 =
        registerFrequencyBits g ∧
      ((registerFrequencyBits g >>> 6) &&& 0b111111) * 64 +
        (registerFrequencyBits g &&& 0b111111) = registerFrequencyBits g := by
    decide
  exact key f (reachable_mem h)

/-- Claim C10 (witness): the multiple-of-25 invariant at the default. -/
theorem c10_register_bits_exact_witness : (47125 : Nat) % 25 = 0 :=
  (c10_register_bits_exact 47125 Reachable.base).1

/-- Claim C3: for every frequencyValue in the valid domain (at most 102325),
the channel label is determined by the first matching row of the top-down
channel table, and in particular frequencyValue 47125 yields band tag C
and channel number 21. -/
theorem c3_channel_label_table (f : Nat) (hf : f ≤ 102325) :
    channelInfo f = channelTableSpec f ∧ channelInfo 47125 = ('C', 21) := by
  refine ⟨?_, by decide⟩
  unfold channelInfo channelTableSpec
  split_ifs <;> first
    | rfl
    | (exfalso; omega)
    | (simp only [Prod.mk.injEq, true_and]; omega)

/-- Claim C3 (witness): the table at the default frequency 47125. -/
theorem c3_channel_label_table_witness : channelInfo 47125 = ('C', 21) :=
  (c3_channel_label_table 47125 (by decide)).2

/-- Claim C1: for every settings value the register write emits exactly 4
bytes in the order C1, C0, FM, FL to 7-bit device address 0x65, with C1, C0,
FM and FL given by the claimed bit formulas over the derived divisorExponent
and registerFrequencyBits, and all reserved bits equal to 0. -/
theorem c1_register_write (t std f : Nat) (htp : t ≤ 1) (hstd : std < 256)
    (hf : f < 4294967296) :
    writeConfig ⟨t, std, f⟩ =
      (0x65,
       [0b10000000 ||| (0 <<< 4) ||| (0 <<< 3) |||
          ((setFrequencyDivider f &&& 0b1100) >>> 1) ||| 0,
        (0 <<< 7) ||| (0 <<< 6) ||| (0 <<< 5) ||| ((std &&& 0b11) <<< 3) |||
          (0 <<< 2) ||| ((setFrequencyDivider f &&& 0b110000) >>> 4),
        (t <<< 6) ||| ((registerFrequencyBits f >>> 6) &&& 0b111111),
        ((registerFrequencyBits f &&& 0b111111) <<< 2) |||
          (setFrequencyDivider f &&& 0b11)]) := by
  have ht1 : t &&& 1 = t := by interval_cases t <;> decide
  unfold writeConfig writeConfigArgs writeConfigRaw registerFrequencyBits
  dsimp only
  rw [divisorPow_mul_lt f hf]
  generalize 2 ^ setFrequencyDivider f * f / 25 = rb
  simp only [Prod.mk.injEq, List.cons.injEq, and_true]
  refine ⟨by decide, ?_, ?_, ?_, ?_⟩
  · simp only [show (0 : Nat) &&& 1 = 0 from rfl, Nat.zero_shiftLeft,
      Nat.or_zero, Nat.zero_or]
  · simp only [show (0 : Nat) &&& 1 = 0 from rfl, Nat.zero_shiftLeft,
      Nat.or_zero, Nat.zero_or]
  · rw [ht1]
    congr 1
    rw [Nat.and_comm 63, land_63_eq_mod, land_63_eq_mod,
      Nat.shiftRight_eq_div_pow, Nat.shiftRight_eq_div_pow]
    norm_num
    omega
  · congr 2
    rw [land_63_eq_mod, land_63_eq_mod]
    omega

/-- Claim C1 (witness): the golden register bytes for the default settings
(standard I, test pattern on, 471.25 MHz, divisor exponent 0). -/
theorem c1_register_write_witness :
    writeConfig ⟨1, 2, 47125⟩ = (0x65, [0x80, 0x10, 0x5D, 0x74]) :=
  (c1_register_write 1 2 47125 (by decide) (by decide) (by decide)).trans
    (by decide)

/-- Evaluation of currentSettings_load on an explicit 10-byte block. -/
theorem load_explicit (b0 b1 b2 b3 b4 b5 b6 b7 b8 b9 : Nat) :
    currentSettings_load [b0, b1, b2, b3, b4, b5, b6, b7, b8, b9] =
      (if b8 + 256 * b9 = (b2 + (b3 + (b4 + (b5 + (b6 + (b7 + 0)))))) % 65536 ∧
          b0 + 256 * b1 = 0x4E45
       then some ⟨b2, b3, b4 + 256 * b5 + 65536 * b6 + 16777216 * b7⟩
       else none) := rfl

/-- Claim C7: for every settings value (any testPatternEnable byte, any
standard byte, any 32-bit frequencyValue), saving and then immediately
loading the same block succeeds and returns settings bit-identical to what
was saved. -/
theorem c7_save_load_roundtrip (t std f : Nat) (ht : t < 256) (hstd : std < 256)
    (hf : f < 4294967296) :
    currentSettings_load (currentSettings_save ⟨t, std, f⟩) = some ⟨t, std, f⟩ := by
  unfold currentSettings_save checksum16 settingsBytes toBytes2 toBytes4
    EEPROM_HEADER
  dsimp only
  simp only [List.cons_append, List.nil_append, List.sum_cons, List.sum_nil]
  rw [load_explicit]
  split_ifs with h
  · simp only [Option.some.injEq, SettingsT.mk.injEq]
    refine ⟨by omega, by omega, by omega⟩
  · exfalso
    apply h
    exact ⟨by omega, by omega⟩

/-- Claim C7 (witness): the round trip at the default settings. -/
theorem c7_save_load_roundtrip_witness :
    currentSettings_load (currentSettings_save ⟨1, 2, 47125⟩) =
      some ⟨1, 2, 47125⟩ :=
  c7_save_load_roundtrip 1 2 47125 (by decide) (by decide) (by decide)

/-- Claim C8: load accepts the stored block exactly when the stored 16-bit
magic equals 0x4E45 and the stored 16-bit checksum equals the sum of the
settings bytes mod 2^16; on rejection the live settings stay at the
built-in defaults; and changing any single byte of a previously saved
10-byte block causes load to reject it. -/
theorem c8_load_integrity :
    (∀ block : List Nat,
        ((currentSettings_load block).isSome = true ↔
          readHeader block = 0x4E45 ∧
          readStoredChecksum block = (readSettingsBytes block).sum % 65536)) ∧
    (∀ block : List Nat, currentSettings_load block = none →
        loadInto block currentSettingsDefault = currentSettingsDefault) ∧
    (∀ t std f : Nat, t < 256 → std < 256 → f < 4294967296 →
      ∀ i < 10, ∀ b < 256, b ≠ (currentSettings_save ⟨t, std, f⟩).getD i 0 →
        currentSettings_load ((currentSettings_save ⟨t, std, f⟩).set i b) = none) := by
  refine ⟨?_, ?_, ?_⟩
  · intro block
    unfold currentSettings_load checksum16 EEPROM_HEADER
    dsimp only
    split_ifs with h
    · simp only [Option.isSome_some, true_iff]
      exact ⟨h.2, h.1⟩
    · simp only [Option.isSome_none, Bool.false_eq_true, false_iff]
      intro hc
      exact h ⟨hc.2, hc.1⟩
  · intro block h
    unfold loadInto
    rw [h]
    rfl
  · intro t std f ht hstd hf i hi b hb hne
    interval_cases i
    · have hb2 : b ≠ 69 := hne
      rw [show (currentSettings_save ⟨t, std, f⟩).set 0 b =
          [b,
           78,
           t % 256,
           std % 256,
           f % 256,
           f / 256 % 256,
           f / 65536 % 256,
           f / 16777216 % 256,
           (t % 256 + (std % 256 + (f % 256 + (f / 256 % 256 + (f / 65536 % 256 + (f / 16777216 % 256 + 0)))))) % 65536 % 256,
           (t % 256 + (std % 256 + (f % 256 + (f / 256 % 256 + (f / 65536 % 256 + (f / 16777216 % 256 + 0)))))) % 65536 / 256 % 256] from rfl,
        load_explicit]
      split_ifs with hc
      · exact absurd hc (by omega)
      · rfl
    · have hb2 : b ≠ 78 := hne
      rw [show (currentSettings_save ⟨t, std, f⟩).set 1 b =
          [69,
           b,
           t % 256,
           std % 256,
           f % 256,
           f / 256 % 256,
           f / 65536 % 256,
           f / 16777216 % 256,
           (t % 256 + (std % 256 + (f % 256 + (f / 256 % 256 + (f / 65536 % 256 + (f / 16777216 % 256 + 0)))))) % 65536 % 256,
           (t % 256 + (std % 256 + (f % 256 + (f / 256 % 256 + (f / 65536 % 256 + (f / 16777216 % 256 + 0)))))) % 65536 / 256 % 256] from rfl,
        load_explicit]
      split_ifs with hc
      · exact absurd hc (by omega)
      · rfl
    · have hb2 : b ≠ t % 256 := hne
      rw [show (currentSettings_save ⟨t, std, f⟩).set 2 b =
          [69,
           78,
           b,
           std % 256,
           f % 256,
           f / 256 % 256,
           f / 65536 % 256,
           f / 16777216 % 256,
           (t % 256 + (std % 256 + (f % 256 + (f / 256 % 256 + (f / 65536 % 256 + (f / 16777216 % 256 + 0)))))) % 65536 % 256,
           (t % 256 + (std % 256 + (f % 256 + (f / 256 % 256 + (f / 65536 % 256 + (f / 16777216 % 256 + 0)))))) % 65536 / 256 % 256] from rfl,
        load_explicit]
      split_ifs with hc
      · exact absurd hc (by omega)
      · rfl
    · have hb2 : b ≠ std % 256 := hne
      rw [show (currentSettings_save ⟨t, std, f⟩).set 3 b =
          [69,
           78,
           t % 256,
           b,
           f % 256,
           f / 256 % 256,
           f / 65536 % 256,
           f / 16777216 % 256,
           (t % 256 + (std % 256 + (f % 256 + (f / 256 % 256 + (f / 65536 % 256 + (f / 16777216 % 256 + 0)))))) % 65536 % 256,
           (t % 256 + (std % 256 + (f % 256 + (f / 256 % 256 + (f / 65536 % 256 + (f / 16777216 % 256 + 0)))))) % 65536 / 256 % 256] from rfl,
        load_explicit]
      split_ifs with hc
      · exact absurd hc (by omega)
      · rfl
    · have hb2 : b ≠ f % 256 := hne
      rw [show (currentSettings_save ⟨t, std, f⟩).set 4 b =
          [69,
           78,
           t % 256,
           std % 256,
           b,
           f / 256 % 256,
           f / 65536 % 256,
           f / 16777216 % 256,
           (t % 256 + (std % 256 + (f % 256 + (f / 256 % 256 + (f / 65536 % 256 + (f / 16777216 % 256 + 0)))))) % 65536 % 256,
           (t % 256 + (std % 256 + (f % 256 + (f / 256 % 256 + (f / 65536 % 256 + (f / 16777216 % 256 + 0)))))) % 65536 / 256 % 256] from rfl,
        load_explicit]
      split_ifs with hc
      · exact absurd hc (by omega)
      · rfl
    · have hb2 : b ≠ f / 256 % 256 := hne
      rw [show (currentSettings_save ⟨t, std, f⟩).set 5 b =
          [69,
           78,
           t % 256,
           std % 256,
           f % 256,
           b,
           f / 65536 % 256,
           f / 16777216 % 256,
           (t % 256 + (std % 256 + (f % 256 + (f / 256 % 256 + (f / 65536 % 256 + (f / 16777216 % 256 + 0)))))) % 65536 % 256,
           (t % 256 + (std % 256 + (f % 256 + (f / 256 % 256 + (f / 65536 % 256 + (f / 16777216 % 256 + 0)))))) % 65536 / 256 % 256] from rfl,
        load_explicit]
      split_ifs with hc
      · exact absurd hc (by omega)
      · rfl
    · have hb2 : b ≠ f / 65536 % 256 := hne
      rw [show (currentSettings_save ⟨t, std, f⟩).set 6 b =
          [69,
           78,
           t % 256,
           std % 256,
           f % 256,
           f / 256 % 256,
           b,
           f / 16777216 % 256,
           (t % 256 + (std % 256 + (f % 256 + (f / 256 % 256 + (f / 65536 % 256 + (f / 16777216 % 256 + 0)))))) % 65536 % 256,
           (t % 256 + (std % 256 + (f % 256 + (f / 256 % 256 + (f / 65536 % 256 + (f / 16777216 % 256 + 0)))))) % 65536 / 256 % 256] from rfl,
        load_explicit]
      split_ifs with hc
      · exact absurd hc (by omega)
      · rfl
    · have hb2 : b ≠ f / 16777216 % 256 := hne
      rw [show (currentSettings_save ⟨t, std, f⟩).set 7 b =
          [69,
           78,
           t % 256,
           std % 256,
           f % 256,
           f / 256 % 256,
           f / 65536 % 256,
           b,
           (t % 256 + (std % 256 + (f % 256 + (f / 256 % 256 + (f / 65536 % 256 + (f / 16777216 % 256 + 0)))))) % 65536 % 256,
           (t % 256 + (std % 256 + (f % 256 + (f / 256 % 256 + (f / 65536 % 256 + (f / 16777216 % 256 + 0)))))) % 65536 / 256 % 256] from rfl,
        load_explicit]
      split_ifs with hc
      · exact absurd hc (by omega)
      · rfl
    · have hb2 : b ≠ (t % 256 + (std % 256 + (f % 256 + (f / 256 % 256 + (f / 65536 % 256 + (f / 16777216 % 256 + 0)))))) % 65536 % 256 := hne
      rw [show (currentSettings_save ⟨t, std, f⟩).set 8 b =
          [69,
           78,
           t % 256,
           std % 256,
           f % 256,
           f / 256 % 256,
           f / 65536 % 256,
           f / 16777216 % 256,
           b,
           (t % 256 + (std % 256 + (f % 256 + (f / 256 % 256 + (f / 65536 % 256 + (f / 16777216 % 256 + 0)))))) % 65536 / 256 % 256] from rfl,
        load_explicit]
      split_ifs with hc
      · exact absurd hc (by omega)
      · rfl
    · have hb2 : b ≠ (t % 256 + (std % 256 + (f % 256 + (f / 256 % 256 + (f / 65536 % 256 + (f / 16777216 % 256 + 0)))))) % 65536 / 256 % 256 := hne
      rw [show (currentSettings_save ⟨t, std, f⟩).set 9 b =
          [69,
           78,
           t % 256,
           std % 256,
           f % 256,
           f / 256 % 256,
           f / 65536 % 256,
           f / 16777216 % 256,
           (t % 256 + (std % 256 + (f % 256 + (f / 256 % 256 + (f / 65536 % 256 + (f / 16777216 % 256 + 0)))))) % 65536 % 256,
           b] from rfl,
        load_explicit]
      split_ifs with hc
      · exact absurd hc (by omega)
      · rfl

/-- Claim C8 (witness): corrupting byte 2 (testPatternEnable) of the saved
default block from 1 to 0 makes load reject it. -/
theorem c8_load_integrity_witness :
    currentSettings_load ((currentSettings_save ⟨1, 2, 47125⟩).set 2 0) =
      none :=
  c8_load_integrity.2.2 1 2 47125 (by decide) (by decide) (by decide) 2
    (by decide) 0 (by decide) (by decide)

end RFMod
